import Mathlib

/-!
Verification of the item-store service in `src/api/index.ts`.

The service keeps an in-memory collection of items (a JavaScript `Map`
keyed by id) and exposes four operations: `handleHealthCheck`,
`handleGetItems`, `handleCreateItem` and `clearItems`.  We embed the
handlers shallowly:

* JavaScript strings are modelled as `List Char`; the `name` field of a
  request body, which is untyped at the runtime boundary, is modelled by
  the `JSValue` variant type, so that the truthiness test `!body.name`
  and the method call `body.name.trim()` of the source can be rendered
  faithfully (calling `.trim()` on a truthy non-string raises a
  JavaScript `TypeError`, modelled with `Except`).
* The module-level `Map` is threaded explicitly as a `Store` value; a
  JavaScript `Map` preserves insertion order, and `set` on a present key
  overwrites in place, so the model is an association list with exactly
  that `set` semantics.
* `crypto.randomUUID()` and `new Date()` are oracles supplied by the
  host environment; they enter the model as explicit arguments
  (`freshId`, `now`) of `handleCreateItem`.
* The single `logger.info` call on the success path is modelled by a
  list of emitted `LogEvent`s returned alongside the envelope.
-/

-- ---------------------------------------------------------------------------
-- JavaScript runtime values at the boundary
-- ---------------------------------------------------------------------------

/-- Runtime value that may sit in the `name` field of a request body
coming from an untyped HTTP layer. -/
inductive JSValue : Type
  | vUndefined : JSValue
  | vNull : JSValue
  | vStr : List Char → JSValue
  | vNum : Int → JSValue
  | vBool : Bool → JSValue
  | vObj : JSValue
deriving DecidableEq, Repr

/-- JavaScript truthiness: `undefined`, `null`, the empty string, `0`
and `false` are falsy; every (non-null) object is truthy. -/
def jsFalsy : JSValue → Bool
  | JSValue.vUndefined => true
  | JSValue.vNull => true
  | JSValue.vStr s => s.isEmpty
  | JSValue.vNum n => n == 0
  | JSValue.vBool b => !b
  | JSValue.vObj => false

/-- Whitespace as removed by JavaScript `String.prototype.trim`. -/
def isJsSpace (c : Char) : Bool := c.isWhitespace

/-- JavaScript `String.prototype.trim`: drop leading and trailing
whitespace. -/
def jsTrim (s : List Char) : List Char :=
  ((s.dropWhile isJsSpace).reverse.dropWhile isJsSpace).reverse

/-- A JavaScript `TypeError`, raised e.g. when `.trim()` is called on a
value that is not a string. -/
inductive JsError : Type
  | typeError : String → JsError
deriving DecidableEq, Repr

-- ---------------------------------------------------------------------------
-- Types of `src/api/index.ts`
-- ---------------------------------------------------------------------------

/-- `interface Item`: a single item in the demo collection.
`createdAt : Date` is modelled as the numeric timestamp the clock oracle
returned at creation time. -/
structure Item : Type where
  id : String
  name : List Char
  createdAt : Nat
deriving DecidableEq, Repr

/-- `interface CreateItemRequest`: the request body for creating an
item; its `name` field is untyped at the runtime boundary. -/
structure CreateItemRequest : Type where
  name : JSValue
deriving DecidableEq, Repr

/-- `interface ApiResponse<T>`: the standard response envelope with
optional `data` and `error` fields. -/
structure ApiResponse (T : Type) : Type where
  success : Bool
  data : Option T
  error : Option String
deriving DecidableEq, Repr

/-- `class ValidationError` from `src/errors/ValidationError.ts`: a
message and an optional field name. -/
structure ValidationError : Type where
  message : String
  field : Option String
deriving DecidableEq, Repr

/-- One structured log event produced through `logger` from
`src/utils/logger.ts`; the only metadata the service attaches is the
item id. -/
structure LogEvent : Type where
  level : String
  message : String
  metaId : Option String
deriving DecidableEq, Repr

/-- The module-level `Map<string, Item>` (`items`), as an association
list in insertion order. -/
abbrev Store : Type := List (String × Item)

/-- JavaScript `Map.prototype.set`: overwrite in place when the key is
present (keeping its position), otherwise append at the end. -/
def mapSet (m : Store) (k : String) (v : Item) : Store :=
  if m.any (fun p => p.1 == k) then
    m.map (fun p => if p.1 == k then (k, v) else p)
  else
    m ++ [(k, v)]

/-- Health status payload of `handleHealthCheck`. -/
structure HealthStatus : Type where
  status : String
deriving DecidableEq, Repr

-- ---------------------------------------------------------------------------
-- Route handlers
-- ---------------------------------------------------------------------------

/-- `handleHealthCheck` (GET /health): constant success envelope. -/
def handleHealthCheck : ApiResponse HealthStatus :=
  { success := true, data := some { status := "ok" }, error := none }

/-- `handleGetItems` (GET /items): success envelope holding
`Array.from(items.values())`, the values in insertion order. -/
def handleGetItems (items : Store) : ApiResponse (List Item) :=
  { success := true, data := some (items.map Prod.snd), error := none }

/-- `handleCreateItem` (POST /items).  The source checks, in order,
`!body`, then `!body.name || body.name.trim().length === 0`, then
`body.name.trim().length > 100`; the disjunction is short-circuit, so
`.trim()` is only reached on a truthy `name`, and raises a `TypeError`
when that truthy value is not a string.  On success the new item is
`set` into the map and one `logger.info` event is emitted. -/
def handleCreateItem (body : Option CreateItemRequest) (freshId : String)
    (now : Nat) (items : Store) :
    Except JsError (ApiResponse Item × Store × List LogEvent) :=
  match body with
  | none =>
      let err : ValidationError := { message := "Request body is required.", field := some "body" }
      Except.ok ({ success := false, data := none, error := some err.message }, items, [])
  | some body =>
      if jsFalsy body.name then
        let err : ValidationError := { message := "Item name is required.", field := some "name" }
        Except.ok ({ success := false, data := none, error := some err.message }, items, [])
      else
        match body.name with
        | JSValue.vStr s =>
            if (jsTrim s).length == 0 then
              let err : ValidationError := { message := "Item name is required.", field := some "name" }
              Except.ok ({ success := false, data := none, error := some err.message }, items, [])
            else if (jsTrim s).length > 100 then
              let err : ValidationError :=
                { message := "Item name must not exceed 100 characters.", field := some "name" }
              Except.ok ({ success := false, data := none, error := some err.message }, items, [])
            else
              let newItem : Item := { id := freshId, name := jsTrim s, createdAt := now }
              Except.ok ({ success := true, data := some newItem, error := none },
                mapSet items newItem.id newItem,
                [{ level := "info", message := "Item created", metaId := some newItem.id }])
        | _ => Except.error (JsError.typeError "body.name.trim is not a function")

/-- `clearItems`: empties the in-memory store. -/
def clearItems (_ : Store) : Store := []

-- ---------------------------------------------------------------------------
-- Derived notions used by the statements
-- ---------------------------------------------------------------------------

/-- The failure envelope the handlers build from a `ValidationError`
message. -/
def failureEnv (msg : String) : ApiResponse Item :=
  { success := false, data := none, error := some msg }

/-- The condition under which the source reaches the
"Item name is required." branch: `name` is falsy, or it is a string of
trimmed length 0. -/
def nameMissing : JSValue → Bool
  | JSValue.vStr s => s.isEmpty || (jsTrim s).length == 0
  | v => jsFalsy v

/-- Request bodies on which the guard `!body.name` protects the
`.trim()` call: the body is absent, or its `name` is a string or a
falsy value. -/
def trimSafe : Option CreateItemRequest → Bool
  | none => true
  | some b =>
      match b.name with
      | JSValue.vStr _ => true
      | v => jsFalsy v

/-- Exclusivity of a response envelope: `data` and `error` are never
both present, `data` only accompanies `success = true`, and `error`
only accompanies `success = false`. -/
def envelopeExclusive {T : Type} (e : ApiResponse T) : Prop :=
  ¬(e.data.isSome = true ∧ e.error.isSome = true) ∧
    (e.data.isSome = true → e.success = true) ∧
    (e.error.isSome = true → e.success = false)

/-- View of a `handleCreateItem` outcome that forgets the store and the
generated item id and timestamp: the success flag, the error message,
and the name of the created item. -/
def createView (r : Except JsError (ApiResponse Item × Store × List LogEvent)) :
    Except JsError (Bool × Option String × Option (List Char)) :=
  r.map (fun p => (p.1.success, p.1.error, p.1.data.map Item.name))

-- ---------------------------------------------------------------------------
-- Helper lemmas
-- ---------------------------------------------------------------------------

/-- `dropWhile` does nothing when the first element already fails the
predicate. -/
lemma dropWhile_cons_false (c : Char) (l : List Char) (h : isJsSpace c = false) :
    List.dropWhile isJsSpace (c :: l) = c :: l := by
  simp [List.dropWhile_cons, h]

/-- Trimming a nonempty list of non-space characters padded with one
space on each side yields the list itself. -/
lemma jsTrim_pad (t : List Char) (ht : t ≠ [])
    (hall : ∀ c ∈ t, isJsSpace c = false) :
    jsTrim ([' '] ++ t ++ [' ']) = t := by
  obtain ⟨c, t', rfl⟩ := List.exists_cons_of_ne_nil ht
  obtain ⟨L, b, hLb⟩ := (List.eq_nil_or_concat (c :: t')).resolve_left ht
  have hsp : isJsSpace ' ' = true := by decide
  have hc : isJsSpace c = false := hall c (by simp)
  have hb : isJsSpace b = false := by
    refine hall b ?_
    rw [hLb]
    simp
  unfold jsTrim
  have h1 : List.dropWhile isJsSpace ([' '] ++ (c :: t') ++ [' ']) =
      (c :: t') ++ [' '] := by
    have : [' '] ++ (c :: t') ++ [' '] = ' ' :: (c :: (t' ++ [' '])) := by simp
    rw [this, List.dropWhile_cons, if_pos hsp, dropWhile_cons_false c _ hc]
    simp
  rw [h1]
  have h2 : ((c :: t') ++ [' ']).reverse = ' ' :: (c :: t').reverse := by simp
  rw [h2, List.dropWhile_cons, if_pos hsp]
  have h3 : (c :: t').reverse = b :: L.reverse := by rw [hLb]; simp
  rw [h3, dropWhile_cons_false b _ hb, ← h3, List.reverse_reverse]

/-- `Map.set` with a key absent from the store appends at the end. -/
lemma mapSet_fresh (st : Store) (k : String) (v : Item)
    (h : ∀ p ∈ st, p.1 ≠ k) :
    mapSet st k v = st ++ [(k, v)] := by
  have hany : st.any (fun p => p.1 == k) = false := by
    rw [List.any_eq_false]
    intro p hp
    simpa using h p hp
  simp [mapSet, hany]

/-- Evaluation of `handleCreateItem` on a string name of trimmed length
between 1 and 100: the success branch is taken. -/
lemma handleCreateItem_valid (s : List Char) (freshId : String) (now : Nat)
    (st : Store) (h1 : 1 ≤ (jsTrim s).length) (h2 : (jsTrim s).length ≤ 100) :
    handleCreateItem (some ⟨JSValue.vStr s⟩) freshId now st =
      Except.ok ({ success := true, data := some ⟨freshId, jsTrim s, now⟩, error := none },
        mapSet st freshId ⟨freshId, jsTrim s, now⟩,
        [⟨"info", "Item created", some freshId⟩]) := by
  have hs : s.isEmpty = false := by
    cases s with
    | nil => simp [jsTrim] at h1
    | cons c cs => rfl
  have hlen0 : ((jsTrim s).length == 0) = false := by
    simp only [beq_eq_false_iff_ne, ne_eq]
    omega
  have hlen100 : ¬((jsTrim s).length > 100) := by omega
  simp [handleCreateItem, jsFalsy, hs, hlen0, hlen100]

/-- Every `Except.ok` outcome of `handleCreateItem` is either one of
the three validation failures (store untouched, no log emitted) or the
success shape (item inserted, one log emitted). -/
lemma createItem_ok_cases (body : Option CreateItemRequest) (freshId : String)
    (now : Nat) (st : Store) (env : ApiResponse Item) (st' : Store)
    (logs : List LogEvent)
    (h : handleCreateItem body freshId now st = Except.ok (env, st', logs)) :
    (st' = st ∧ logs = [] ∧ env.success = false ∧ env.data = none ∧
      (env.error = some "Request body is required." ∨
       env.error = some "Item name is required." ∨
       env.error = some "Item name must not exceed 100 characters.")) ∨
    (∃ item : Item,
      env = { success := true, data := some item, error := none } ∧
      st' = mapSet st freshId item ∧
      logs = [{ level := "info", message := "Item created", metaId := some freshId }]) := by
  cases body with
  | none =>
      left
      simp [handleCreateItem] at h
      obtain ⟨h1, h2, h3⟩ := h
      subst h2
      subst h3
      simp [← h1]
  | some b =>
      cases hb : b.name with
      | vStr s =>
          by_cases he : s.isEmpty = true
          · left
            simp [handleCreateItem, hb, jsFalsy, he] at h
            obtain ⟨h1, h2, h3⟩ := h
            subst h2
            subst h3
            simp [← h1]
          · by_cases h0 : ((jsTrim s).length == 0) = true
            · left
              simp [handleCreateItem, hb, jsFalsy, he, h0] at h
              obtain ⟨h1, h2, h3⟩ := h
              subst h2
              subst h3
              simp [← h1]
            · by_cases h100 : (jsTrim s).length > 100
              · left
                simp [handleCreateItem, hb, jsFalsy, he, h0, h100] at h
                obtain ⟨h1, h2, h3⟩ := h
                subst h2
                subst h3
                simp [← h1]
              · right
                simp [handleCreateItem, hb, jsFalsy, he, h0, h100] at h
                obtain ⟨h1, h2, h3⟩ := h
                exact ⟨⟨freshId, jsTrim s, now⟩, by simp [← h1], h2.symm, h3.symm⟩
      | vUndefined =>
          left
          simp [handleCreateItem, hb, jsFalsy] at h
          obtain ⟨h1, h2, h3⟩ := h
          subst h2
          subst h3
          simp [← h1]
      | vNull =>
          left
          simp [handleCreateItem, hb, jsFalsy] at h
          obtain ⟨h1, h2, h3⟩ := h
          subst h2
          subst h3
          simp [← h1]
      | vNum n =>
          by_cases hn : (n == 0) = true
          · left
            simp [handleCreateItem, hb, jsFalsy, hn] at h
            obtain ⟨h1, h2, h3⟩ := h
            subst h2
            subst h3
            simp [← h1]
          · exfalso
            simp [handleCreateItem, hb, jsFalsy, hn] at h
      | vBool bb =>
          by_cases hB : bb = false
          · left
            simp [handleCreateItem, hb, jsFalsy, hB] at h
            obtain ⟨h1, h2, h3⟩ := h
            subst h2
            subst h3
            simp [← h1]
          · exfalso
            simp [handleCreateItem, hb, jsFalsy, hB] at h
      | vObj =>
          exfalso
          simp [handleCreateItem, hb, jsFalsy] at h

-- ---------------------------------------------------------------------------
-- Claim theorems
-- ---------------------------------------------------------------------------

/-- C1: validation in `handleCreateItem` is fail-fast in the fixed
order missing-body, name-required, name-too-long, each failure
producing exactly one error message: an absent body yields
"Request body is required."; otherwise a missing name (falsy, or a
string of trimmed length 0) yields "Item name is required."; otherwise
a string name of trimmed length greater than 100 yields
"Item name must not exceed 100 characters.".  Errors are never
accumulated: each failure envelope carries the single message of the
first failing rule. -/
theorem createItem_validation_order (freshId : String) (now : Nat) (st : Store) :
    handleCreateItem none freshId now st =
      Except.ok (failureEnv "Request body is required.", st, []) ∧
    (∀ v : JSValue, nameMissing v = true →
      handleCreateItem (some ⟨v⟩) freshId now st =
        Except.ok (failureEnv "Item name is required.", st, [])) ∧
    (∀ s : List Char, nameMissing (JSValue.vStr s) = false →
      (jsTrim s).length > 100 →
      handleCreateItem (some ⟨JSValue.vStr s⟩) freshId now st =
        Except.ok (failureEnv "Item name must not exceed 100 characters.", st, [])) := by
  refine ⟨rfl, ?_, ?_⟩
  · intro v hv
    cases v with
    | vUndefined => simp [handleCreateItem, jsFalsy, failureEnv]
    | vNull => simp [handleCreateItem, jsFalsy, failureEnv]
    | vStr s =>
        have h2 : (s.isEmpty || ((jsTrim s).length == 0)) = true := by
          simpa [nameMissing] using hv
        by_cases he : s.isEmpty = true
        · simp [handleCreateItem, jsFalsy, he, failureEnv]
        · have h0 : ((jsTrim s).length == 0) = true := by
            rcases Bool.or_eq_true_iff.mp h2 with h | h
            · exact absurd h he
            · exact h
          simp [handleCreateItem, jsFalsy, he, h0, failureEnv]
    | vNum n =>
        have hn : jsFalsy (JSValue.vNum n) = true := by simpa [nameMissing] using hv
        simp [handleCreateItem, hn, failureEnv]
    | vBool b =>
        have hB : jsFalsy (JSValue.vBool b) = true := by simpa [nameMissing] using hv
        simp [handleCreateItem, hB, failureEnv]
    | vObj => simp [nameMissing, jsFalsy] at hv
  · intro s hs hlen
    have hs' : s.isEmpty = false ∧ ((jsTrim s).length == 0) = false := by
      simpa [nameMissing, Bool.or_eq_false_iff] using hs
    simp [handleCreateItem, jsFalsy, hs'.1, hs'.2, hlen, failureEnv]

/-- C1 witness: each of the three validation rules fires at a concrete
input. -/
theorem createItem_validation_order_witness :
    handleCreateItem none "id" 0 [] =
      Except.ok (failureEnv "Request body is required.", [], []) ∧
    handleCreateItem (some ⟨JSValue.vStr [' ', ' ']⟩) "id" 0 [] =
      Except.ok (failureEnv "Item name is required.", [], []) ∧
    handleCreateItem (some ⟨JSValue.vStr (List.replicate 101 'a')⟩) "id" 0 [] =
      Except.ok (failureEnv "Item name must not exceed 100 characters.", [], []) :=
  ⟨(createItem_validation_order "id" 0 []).1,
   (createItem_validation_order "id" 0 []).2.1 (JSValue.vStr [' ', ' ']) (by decide),
   (createItem_validation_order "id" 0 []).2.2 (List.replicate 101 'a')
     (by decide) (by decide)⟩

/-- C2 counterexample: a body whose `name` is the number 42 is truthy,
so the guard does not fire, and `body.name.trim()` raises a
`TypeError`; `handleCreateItem` does not return an envelope on this
input, refuting the claim that it never throws for a `name` of
arbitrary runtime type. -/
theorem createItem_throws_on_numeric_name :
    handleCreateItem (some ⟨JSValue.vNum 42⟩) "id" 0 [] =
      Except.error (JsError.typeError "body.name.trim is not a function") := rfl

/-- C2 (amended): `handleCreateItem` never throws when the body is
absent or when its `name` field is a string or any falsy value: on all
such inputs it returns a success or failure envelope.  (A truthy
non-string `name` instead raises a `TypeError` from `.trim()`.) -/
theorem createItem_no_throw_when_trim_safe (body : Option CreateItemRequest)
    (freshId : String) (now : Nat) (st : Store) (h : trimSafe body = true) :
    ∃ r, handleCreateItem body freshId now st = Except.ok r := by
  cases body with
  | none => exact ⟨_, rfl⟩
  | some b =>
      obtain ⟨v⟩ := b
      cases v with
      | vStr s =>
          by_cases he : s.isEmpty = true
          · exact ⟨(failureEnv "Item name is required.", st, []),
              by simp [handleCreateItem, jsFalsy, he, failureEnv]⟩
          · by_cases h0 : ((jsTrim s).length == 0) = true
            · exact ⟨(failureEnv "Item name is required.", st, []),
                by simp [handleCreateItem, jsFalsy, he, h0, failureEnv]⟩
            · by_cases h100 : (jsTrim s).length > 100
              · exact ⟨(failureEnv "Item name must not exceed 100 characters.", st, []),
                  by simp [handleCreateItem, jsFalsy, he, h0, h100, failureEnv]⟩
              · have hpos : 1 ≤ (jsTrim s).length := by
                  rcases Nat.eq_zero_or_pos (jsTrim s).length with hz | hp
                  · exact absurd (by simpa using hz) h0
                  · exact hp
                exact ⟨_, handleCreateItem_valid s freshId now st hpos (by omega)⟩
      | vUndefined =>
          exact ⟨(failureEnv "Item name is required.", st, []),
            by simp [handleCreateItem, jsFalsy, failureEnv]⟩
      | vNull =>
          exact ⟨(failureEnv "Item name is required.", st, []),
            by simp [handleCreateItem, jsFalsy, failureEnv]⟩
      | vNum n =>
          have hn : jsFalsy (JSValue.vNum n) = true := by
            simpa [trimSafe] using h
          exact ⟨(failureEnv "Item name is required.", st, []),
            by simp [handleCreateItem, hn, failureEnv]⟩
      | vBool bb =>
          have hB : jsFalsy (JSValue.vBool bb) = true := by
            simpa [trimSafe] using h
          exact ⟨(failureEnv "Item name is required.", st, []),
            by simp [handleCreateItem, hB, failureEnv]⟩
      | vObj => simp [trimSafe, jsFalsy] at h

/-- C2 witness: the amended no-throw guarantee at a concrete string
name. -/
theorem createItem_no_throw_when_trim_safe_witness :
    ∃ r, handleCreateItem (some ⟨JSValue.vStr ['a']⟩) "id" 0 [] = Except.ok r :=
  createItem_no_throw_when_trim_safe (some ⟨JSValue.vStr ['a']⟩) "id" 0 []
    (by decide)

/-- C3: for every valid request (string name of trimmed length 1 to
100), `handleCreateItem` returns a success envelope whose `data.name`
is the trimmed input name and whose `data.id` is the freshly allocated
id; under the hypothesis that the id generator never collides with
previously created items, the new id differs from every stored item id
and the item is appended to the collection, so a subsequent
`handleGetItems` includes it. -/
theorem createItem_valid_creates (s : List Char) (freshId : String) (now : Nat)
    (st : Store) (h1 : 1 ≤ (jsTrim s).length) (h2 : (jsTrim s).length ≤ 100)
    (hfresh : ∀ p ∈ st, p.1 ≠ freshId ∧ p.2.id ≠ freshId) :
    handleCreateItem (some ⟨JSValue.vStr s⟩) freshId now st =
      Except.ok ({ success := true, data := some ⟨freshId, jsTrim s, now⟩, error := none },
        st ++ [(freshId, ⟨freshId, jsTrim s, now⟩)],
        [⟨"info", "Item created", some freshId⟩]) ∧
    (∀ p ∈ st, (⟨freshId, jsTrim s, now⟩ : Item).id ≠ p.2.id) ∧
    ∃ l, (handleGetItems (st ++ [(freshId, ⟨freshId, jsTrim s, now⟩)])).data = some l ∧
      (⟨freshId, jsTrim s, now⟩ : Item) ∈ l := by
  refine ⟨?_, ?_, ?_⟩
  · rw [handleCreateItem_valid s freshId now st h1 h2,
      mapSet_fresh st freshId _ (fun p hp => (hfresh p hp).1)]
  · intro p hp
    exact fun hc => (hfresh p hp).2 hc.symm
  · exact ⟨st.map Prod.snd ++ [⟨freshId, jsTrim s, now⟩], by simp [handleGetItems], by simp⟩

/-- C3 witness: creating "a" on a one-item store with a fresh id. -/
theorem createItem_valid_creates_witness :
    handleCreateItem (some ⟨JSValue.vStr ['a']⟩) "id2" 7
        [("id1", ⟨"id1", ['b'], 0⟩)] =
      Except.ok ({ success := true, data := some ⟨"id2", jsTrim ['a'], 7⟩, error := none },
        [("id1", ⟨"id1", ['b'], 0⟩)] ++ [("id2", ⟨"id2", jsTrim ['a'], 7⟩)],
        [⟨"info", "Item created", some "id2"⟩]) ∧
    (∀ p ∈ [("id1", (⟨"id1", ['b'], 0⟩ : Item))],
      (⟨"id2", jsTrim ['a'], 7⟩ : Item).id ≠ p.2.id) ∧
    ∃ l, (handleGetItems ([("id1", ⟨"id1", ['b'], 0⟩)] ++
        [("id2", ⟨"id2", jsTrim ['a'], 7⟩)])).data = some l ∧
      (⟨"id2", jsTrim ['a'], 7⟩ : Item) ∈ l :=
  createItem_valid_creates ['a'] "id2" 7 [("id1", ⟨"id1", ['b'], 0⟩)]
    (by decide) (by decide) (by decide)

/-- C4: whenever `handleCreateItem` returns a failure envelope, the
envelope carries exactly one of the three contractual error messages,
its `data` field is absent, the collection is left unchanged, and no
log event is emitted. -/
theorem createItem_failure_atomic (body : Option CreateItemRequest)
    (freshId : String) (now : Nat) (st : Store) (env : ApiResponse Item)
    (st' : Store) (logs : List LogEvent)
    (h : handleCreateItem body freshId now st = Except.ok (env, st', logs))
    (hfail : env.success = false) :
    env.data = none ∧ st' = st ∧ logs = [] ∧
      (env.error = some "Request body is required." ∨
       env.error = some "Item name is required." ∨
       env.error = some "Item name must not exceed 100 characters.") := by
  rcases createItem_ok_cases body freshId now st env st' logs h with
    ⟨hst, hlog, _, hdata, herr⟩ | ⟨item, henv, _, _⟩
  · exact ⟨hdata, hst, hlog, herr⟩
  · rw [henv] at hfail
    simp at hfail

/-- C4 witness: the missing-body failure leaves the store untouched and
emits nothing. -/
theorem createItem_failure_atomic_witness :
    (failureEnv "Request body is required.").data = none ∧
    ([("id1", (⟨"id1", ['b'], 0⟩ : Item))] : Store) = [("id1", ⟨"id1", ['b'], 0⟩)] ∧
    ([] : List LogEvent) = [] ∧
      ((failureEnv "Request body is required.").error = some "Request body is required." ∨
       (failureEnv "Request body is required.").error = some "Item name is required." ∨
       (failureEnv "Request body is required.").error = some "Item name must not exceed 100 characters.") :=
  createItem_failure_atomic none "id" 0 [("id1", ⟨"id1", ['b'], 0⟩)]
    (failureEnv "Request body is required.") [("id1", ⟨"id1", ['b'], 0⟩)] []
    (by rfl) (by rfl)

/-- C5: the 100-character limit is evaluated against the trimmed name:
trimmed length exactly 100 is accepted, trimmed length exactly 101 is
rejected with the over-limit message, and a padded name of 99 non-space
characters surrounded by one space on each side (raw length 101) is
accepted with the stored value equal to the unpadded characters, hence
free of surrounding whitespace. -/
theorem createItem_trimmed_boundary (freshId : String) (now : Nat) (st : Store) :
    (∀ s : List Char, (jsTrim s).length = 100 →
      handleCreateItem (some ⟨JSValue.vStr s⟩) freshId now st =
        Except.ok ({ success := true, data := some ⟨freshId, jsTrim s, now⟩, error := none },
          mapSet st freshId ⟨freshId, jsTrim s, now⟩,
          [⟨"info", "Item created", some freshId⟩])) ∧
    (∀ s : List Char, (jsTrim s).length = 101 →
      handleCreateItem (some ⟨JSValue.vStr s⟩) freshId now st =
        Except.ok (failureEnv "Item name must not exceed 100 characters.", st, [])) ∧
    (∀ t : List Char, t.length = 99 → (∀ c ∈ t, isJsSpace c = false) →
      ([' '] ++ t ++ [' ']).length = 101 ∧
      handleCreateItem (some ⟨JSValue.vStr ([' '] ++ t ++ [' '])⟩) freshId now st =
        Except.ok ({ success := true, data := some ⟨freshId, t, now⟩, error := none },
          mapSet st freshId ⟨freshId, t, now⟩,
          [⟨"info", "Item created", some freshId⟩]) ∧
      (∀ c ∈ (⟨freshId, t, now⟩ : Item).name, isJsSpace c = false)) := by
  refine ⟨?_, ?_, ?_⟩
  · intro s hlen
    exact handleCreateItem_valid s freshId now st (by omega) (by omega)
  · intro s hlen
    have hs : s.isEmpty = false := by
      cases s with
      | nil => simp [jsTrim] at hlen
      | cons c cs => rfl
    have h0 : ((jsTrim s).length == 0) = false := by
      simp only [beq_eq_false_iff_ne, ne_eq]
      omega
    have h100 : (jsTrim s).length > 100 := by omega
    simp [handleCreateItem, jsFalsy, hs, h0, h100, failureEnv]
  · intro t hlen hall
    have ht : t ≠ [] := by
      intro hnil
      rw [hnil] at hlen
      simp at hlen
    have htrim : jsTrim ([' '] ++ t ++ [' ']) = t := jsTrim_pad t ht hall
    refine ⟨by simp [hlen], ?_, ?_⟩
    · have := handleCreateItem_valid ([' '] ++ t ++ [' ']) freshId now st
        (by rw [htrim]; omega) (by rw [htrim]; omega)
      rw [htrim] at this
      exact this
    · intro c hc
      exact hall c hc

/-- C5 witness: the three boundary cases at concrete names built from
the character a. -/
theorem createItem_trimmed_boundary_witness :
    handleCreateItem (some ⟨JSValue.vStr (List.replicate 100 'a')⟩) "id" 0 [] =
      Except.ok ({ success := true, data := some ⟨"id", jsTrim (List.replicate 100 'a'), 0⟩, error := none },
        mapSet [] "id" ⟨"id", jsTrim (List.replicate 100 'a'), 0⟩,
        [⟨"info", "Item created", some "id"⟩]) ∧
    handleCreateItem (some ⟨JSValue.vStr (List.replicate 101 'b')⟩) "id" 0 [] =
      Except.ok (failureEnv "Item name must not exceed 100 characters.", [], []) ∧
    (([' '] ++ List.replicate 99 'a' ++ [' ']).length = 101 ∧
      handleCreateItem (some ⟨JSValue.vStr ([' '] ++ List.replicate 99 'a' ++ [' '])⟩) "id" 0 [] =
        Except.ok ({ success := true, data := some ⟨"id", List.replicate 99 'a', 0⟩, error := none },
          mapSet [] "id" ⟨"id", List.replicate 99 'a', 0⟩,
          [⟨"info", "Item created", some "id"⟩]) ∧
      (∀ c ∈ (⟨"id", List.replicate 99 'a', 0⟩ : Item).name, isJsSpace c = false)) :=
  ⟨(createItem_trimmed_boundary "id" 0 []).1 (List.replicate 100 'a') (by decide),
   (createItem_trimmed_boundary "id" 0 []).2.1 (List.replicate 101 'b') (by decide),
   (createItem_trimmed_boundary "id" 0 []).2.2 (List.replicate 99 'a') (by decide)
     (by decide)⟩

/-- C6: every envelope returned by `handleHealthCheck`,
`handleGetItems`, or (as an `Except.ok` outcome) `handleCreateItem`
satisfies the exclusivity invariant: `data` and `error` are never both
present, `data` only with `success = true`, `error` only with
`success = false`. -/
theorem envelope_exclusivity :
    envelopeExclusive handleHealthCheck ∧
    (∀ st : Store, envelopeExclusive (handleGetItems st)) ∧
    (∀ (body : Option CreateItemRequest) (freshId : String) (now : Nat)
        (st : Store) (env : ApiResponse Item) (st' : Store) (logs : List LogEvent),
      handleCreateItem body freshId now st = Except.ok (env, st', logs) →
      envelopeExclusive env) := by
  refine ⟨?_, ?_, ?_⟩
  · exact ⟨by simp [handleHealthCheck], by simp [handleHealthCheck],
      by simp [handleHealthCheck]⟩
  · intro st
    exact ⟨by simp [handleGetItems], by simp [handleGetItems],
      by simp [handleGetItems]⟩
  · intro body freshId now st env st' logs h
    rcases createItem_ok_cases body freshId now st env st' logs h with
      ⟨_, _, hsucc, hdata, _⟩ | ⟨item, henv, _, _⟩
    · exact ⟨fun hc => by simp [hdata] at hc, fun hc => by simp [hdata] at hc,
        fun _ => hsucc⟩
    · rw [henv]
      exact ⟨by simp, by simp, by simp⟩

/-- C6 witness: exclusivity of the envelope of a concrete
`handleCreateItem` failure. -/
theorem envelope_exclusivity_witness :
    envelopeExclusive (failureEnv "Request body is required.") :=
  envelope_exclusivity.2.2 none "id" 0 [] (failureEnv "Request body is required.")
    [] [] (by rfl)

/-- C7: name uniqueness is not enforced: two successive
`handleCreateItem` calls with the identical valid name both return
success envelopes; under the hypothesis that the id generator never
collides, the two created items have distinct ids, and both items are
present in the collection afterwards. -/
theorem createItem_duplicate_names (s : List Char) (id1 id2 : String)
    (t1 t2 : Nat) (st : Store)
    (h1 : 1 ≤ (jsTrim s).length) (h2 : (jsTrim s).length ≤ 100)
    (hf1 : ∀ p ∈ st, p.1 ≠ id1) (hf2 : ∀ p ∈ st, p.1 ≠ id2)
    (hne : id1 ≠ id2) :
    handleCreateItem (some ⟨JSValue.vStr s⟩) id1 t1 st =
      Except.ok ({ success := true, data := some ⟨id1, jsTrim s, t1⟩, error := none },
        st ++ [(id1, ⟨id1, jsTrim s, t1⟩)],
        [⟨"info", "Item created", some id1⟩]) ∧
    handleCreateItem (some ⟨JSValue.vStr s⟩) id2 t2 (st ++ [(id1, ⟨id1, jsTrim s, t1⟩)]) =
      Except.ok ({ success := true, data := some ⟨id2, jsTrim s, t2⟩, error := none },
        (st ++ [(id1, ⟨id1, jsTrim s, t1⟩)]) ++ [(id2, ⟨id2, jsTrim s, t2⟩)],
        [⟨"info", "Item created", some id2⟩]) ∧
    (⟨id1, jsTrim s, t1⟩ : Item).id ≠ (⟨id2, jsTrim s, t2⟩ : Item).id ∧
    (id1, (⟨id1, jsTrim s, t1⟩ : Item)) ∈
      (st ++ [(id1, ⟨id1, jsTrim s, t1⟩)]) ++ [(id2, ⟨id2, jsTrim s, t2⟩)] ∧
    (id2, (⟨id2, jsTrim s, t2⟩ : Item)) ∈
      (st ++ [(id1, ⟨id1, jsTrim s, t1⟩)]) ++ [(id2, ⟨id2, jsTrim s, t2⟩)] := by
  have hf2' : ∀ p ∈ st ++ [(id1, (⟨id1, jsTrim s, t1⟩ : Item))], p.1 ≠ id2 := by
    intro p hp
    rcases List.mem_append.mp hp with hmem | hmem
    · exact hf2 p hmem
    · have : p = (id1, (⟨id1, jsTrim s, t1⟩ : Item)) := by simpa using hmem
      rw [this]
      exact hne
  refine ⟨?_, ?_, ?_, ?_, ?_⟩
  · rw [handleCreateItem_valid s id1 t1 st h1 h2, mapSet_fresh st id1 _ hf1]
  · rw [handleCreateItem_valid s id2 t2 _ h1 h2, mapSet_fresh _ id2 _ hf2']
  · exact hne
  · simp
  · simp

/-- C7 witness: two creates of the name "dup" from the empty store. -/
theorem createItem_duplicate_names_witness :
    handleCreateItem (some ⟨JSValue.vStr ['d', 'u', 'p']⟩) "id1" 1 [] =
      Except.ok ({ success := true, data := some ⟨"id1", jsTrim ['d', 'u', 'p'], 1⟩, error := none },
        [] ++ [("id1", ⟨"id1", jsTrim ['d', 'u', 'p'], 1⟩)],
        [⟨"info", "Item created", some "id1"⟩]) ∧
    handleCreateItem (some ⟨JSValue.vStr ['d', 'u', 'p']⟩) "id2" 2
        ([] ++ [("id1", ⟨"id1", jsTrim ['d', 'u', 'p'], 1⟩)]) =
      Except.ok ({ success := true, data := some ⟨"id2", jsTrim ['d', 'u', 'p'], 2⟩, error := none },
        ([] ++ [("id1", ⟨"id1", jsTrim ['d', 'u', 'p'], 1⟩)]) ++
          [("id2", ⟨"id2", jsTrim ['d', 'u', 'p'], 2⟩)],
        [⟨"info", "Item created", some "id2"⟩]) ∧
    (⟨"id1", jsTrim ['d', 'u', 'p'], 1⟩ : Item).id ≠
      (⟨"id2", jsTrim ['d', 'u', 'p'], 2⟩ : Item).id ∧
    ("id1", (⟨"id1", jsTrim ['d', 'u', 'p'], 1⟩ : Item)) ∈
      ([] ++ [("id1", ⟨"id1", jsTrim ['d', 'u', 'p'], 1⟩)]) ++
        [("id2", ⟨"id2", jsTrim ['d', 'u', 'p'], 2⟩)] ∧
    ("id2", (⟨"id2", jsTrim ['d', 'u', 'p'], 2⟩ : Item)) ∈
      ([] ++ [("id1", ⟨"id1", jsTrim ['d', 'u', 'p'], 1⟩)]) ++
        [("id2", ⟨"id2", jsTrim ['d', 'u', 'p'], 2⟩)] :=
  createItem_duplicate_names ['d', 'u', 'p'] "id1" "id2" 1 2 []
    (by decide) (by decide) (by decide) (by decide) (by decide)

/-- C8: for every collection state, clearing the store and then
listing returns a success envelope whose data is the empty sequence. -/
theorem reset_then_list_empty (st : Store) :
    handleGetItems (clearItems st) =
      { success := true, data := some ([] : List Item), error := none } := rfl

-- ---------------------------------------------------------------------------
-- Sequences of create calls (for the creation-order claim)
-- ---------------------------------------------------------------------------

/-- One `handleCreateItem` invocation: the string name of the request
body together with the id and timestamp the oracles supply for the
call. -/
structure CreateCall : Type where
  name : List Char
  freshId : String
  now : Nat
deriving DecidableEq, Repr

/-- The store after one call: the store component of the returned
`Except.ok`, unchanged if the call threw. -/
def applyCreate (st : Store) (c : CreateCall) : Store :=
  match handleCreateItem (some ⟨JSValue.vStr c.name⟩) c.freshId c.now st with
  | Except.ok (_, st', _) => st'
  | Except.error _ => st

/-- The store after a sequence of `handleCreateItem` calls. -/
def runCreates (cs : List CreateCall) (st : Store) : Store :=
  cs.foldl applyCreate st

/-- The item a valid call creates. -/
def mkItem (c : CreateCall) : Item :=
  ⟨c.freshId, jsTrim c.name, c.now⟩

/-- A sequence of valid creates with pairwise-fresh ids appends its
items to the store in call order. -/
lemma runCreates_eq_append (cs : List CreateCall) (st : Store)
    (hvalid : ∀ c ∈ cs, 1 ≤ (jsTrim c.name).length ∧ (jsTrim c.name).length ≤ 100)
    (hfresh : ∀ c ∈ cs, ∀ p ∈ st, p.1 ≠ c.freshId)
    (hnodup : (cs.map CreateCall.freshId).Nodup) :
    runCreates cs st = st ++ cs.map (fun c => (c.freshId, mkItem c)) := by
  induction cs generalizing st with
  | nil => simp [runCreates]
  | cons c cs ih =>
      have hv := hvalid c (by simp)
      have happ : applyCreate st c = st ++ [(c.freshId, mkItem c)] := by
        rw [applyCreate, handleCreateItem_valid c.name c.freshId c.now st hv.1 hv.2,
          mapSet_fresh st c.freshId _ (hfresh c (by simp))]
        rfl
      have hnotin : c.freshId ∉ cs.map CreateCall.freshId := by
        have := hnodup
        simp only [List.map_cons, List.nodup_cons] at this
        exact this.1
      have hfresh' : ∀ c' ∈ cs, ∀ p ∈ st ++ [(c.freshId, mkItem c)], p.1 ≠ c'.freshId := by
        intro c' hc' p hp
        rcases List.mem_append.mp hp with hmem | hmem
        · exact hfresh c' (by simp [hc']) p hmem
        · have hpc : p = (c.freshId, mkItem c) := by simpa using hmem
          rw [hpc]
          intro he
          have he' : c.freshId = c'.freshId := he
          refine hnotin ?_
          rw [he']
          exact List.mem_map_of_mem CreateCall.freshId hc'
      have hnodup' : (cs.map CreateCall.freshId).Nodup := by
        simp only [List.map_cons, List.nodup_cons] at hnodup
        exact hnodup.2
      calc runCreates (c :: cs) st
          = runCreates cs (applyCreate st c) := by simp [runCreates]
        _ = runCreates cs (st ++ [(c.freshId, mkItem c)]) := by rw [happ]
        _ = (st ++ [(c.freshId, mkItem c)]) ++ cs.map (fun c => (c.freshId, mkItem c)) :=
            ih _ (fun c' hc' => hvalid c' (by simp [hc'])) hfresh' hnodup'
        _ = st ++ (c :: cs).map (fun c => (c.freshId, mkItem c)) := by simp

/-- C9: after a reset, a sequence of valid `handleCreateItem` calls
with pairwise-distinct fresh ids leaves the collection holding exactly
the created items, and `handleGetItems` returns them in creation order
(the Map preserves insertion order). -/
theorem listItems_creation_order (cs : List CreateCall) (st0 : Store)
    (hvalid : ∀ c ∈ cs, 1 ≤ (jsTrim c.name).length ∧ (jsTrim c.name).length ≤ 100)
    (hnodup : (cs.map CreateCall.freshId).Nodup) :
    handleGetItems (runCreates cs (clearItems st0)) =
      { success := true, data := some (cs.map mkItem), error := none } := by
  rw [clearItems, runCreates_eq_append cs [] hvalid (by simp) hnodup]
  simp [handleGetItems, List.map_map, Function.comp]

/-- C9 witness: two creates after a reset are listed in call order. -/
theorem listItems_creation_order_witness :
    handleGetItems (runCreates [⟨['a'], "id1", 1⟩, ⟨['b'], "id2", 2⟩] (clearItems [])) =
      { success := true,
        data := some ([⟨['a'], "id1", 1⟩, ⟨['b'], "id2", 2⟩].map mkItem),
        error := none } :=
  listItems_creation_order [⟨['a'], "id1", 1⟩, ⟨['b'], "id2", 2⟩] []
    (by decide) (by decide)

/-- C10: the validation outcome of `handleCreateItem` does not depend
on the collection contents: with the same body, id-generator value and
clock value, two runs on arbitrary stores agree on the success flag,
the error message, and the name of the created item (and on whether a
`TypeError` is thrown). -/
theorem createItem_store_independent (body : Option CreateItemRequest)
    (freshId : String) (now : Nat) (st1 st2 : Store) :
    createView (handleCreateItem body freshId now st1) =
      createView (handleCreateItem body freshId now st2) := by
  cases body with
  | none => rfl
  | some b =>
      obtain ⟨v⟩ := b
      cases v with
      | vStr s =>
          by_cases he : s.isEmpty = true
          · simp [handleCreateItem, jsFalsy, he, createView, Except.map]
          · by_cases h0 : ((jsTrim s).length == 0) = true
            · simp [handleCreateItem, jsFalsy, he, h0, createView, Except.map]
            · by_cases h100 : (jsTrim s).length > 100
              · simp [handleCreateItem, jsFalsy, he, h0, h100, createView, Except.map]
              · simp [handleCreateItem, jsFalsy, he, h0, h100, createView, Except.map]
      | vUndefined => rfl
      | vNull => rfl
      | vNum n =>
          by_cases hn : (n == 0) = true
          · simp [handleCreateItem, jsFalsy, hn, createView, Except.map]
          · simp [handleCreateItem, jsFalsy, hn, createView, Except.map]
      | vBool bb =>
          by_cases hB : bb = false
          · simp [handleCreateItem, jsFalsy, hB, createView, Except.map]
          · simp [handleCreateItem, jsFalsy, hB, createView, Except.map]
      | vObj => rfl
